import Mathlib

/-
Shallow embedding of the screen-sharing session core of this repository
(the React component in src/unnamed/part_000, the authoritative version).

The React state hooks and refs become fields of `AppState`; each event
handler and callback becomes a function `AppState → AppState × List Effect`,
where `Effect` records the externally visible resource operations
(creating/destroying the signaling peer, opening/closing data channels and
media calls, stopping stream tracks, clipboard writes).  Asynchronous
results (getDisplayMedia, clipboard write) are passed in as explicit
parameters, so each handler runs atomically, and user intents / peer events
form a step relation `dispatch` guarded exactly by the conditions under
which the UI renders the corresponding control or the handler is
registered.  Resource handles (peers, connections, calls, streams) are
modelled as natural-number ids.
-/

namespace RemoteShare

/-- The `mode` React state: "landing" | "share" | "view". -/
inductive Mode where
  | landing
  | share
  | view
deriving DecidableEq

/-- The `connectionStatus` React state:
"disconnected" | "connecting" | "connected". -/
inductive ConnStatus where
  | disconnected
  | connecting
  | connected
deriving DecidableEq

/-- Externally visible resource operations emitted by the handlers. -/
inductive Effect where
  | createPeer (p : Nat)
  | destroyPeer (p : Nat)
  | openConn (c : Nat)
  | closeConn (c : Nat)
  | placeCall (c : Nat)
  | answerCall (c : Nat)
  | closeCall (c : Nat)
  | stopTracks (s : Nat)
  | clipboardWrite (s : String)
deriving DecidableEq

/-- The component state: React useState hooks plus the useRef cells.
`connOpen` models the `open` property of the connection currently held in
`connectionRef` (PeerJS sets it when the channel opens and clears it when
it closes); `videoSrc` models `videoRef.current.srcObject`. -/
structure AppState where
  mode : Mode
  peerId : String
  remotePeerId : String
  connectionStatus : ConnStatus
  copied : Bool
  error : Option String
  stream : Option Nat
  videoSrc : Option Nat
  peerRef : Option Nat
  connectionRef : Option Nat
  connOpen : Bool
  callRef : Option Nat
deriving DecidableEq

/-- The initial render: every hook at its useState default, every ref null. -/
def initState : AppState :=
  { mode := Mode.landing
    peerId := ""
    remotePeerId := ""
    connectionStatus := ConnStatus.disconnected
    copied := false
    error := none
    stream := none
    videoSrc := none
    peerRef := none
    connectionRef := none
    connOpen := false
    callRef := none }

/-- `stopScreenShare`: stops and clears the capture stream state, stops and
clears the video element binding, closes and clears the call ref. -/
def stopScreenShare (s : AppState) : AppState × List Effect :=
  let (s1, e1) :=
    match s.stream with
    | some st => ({ s with stream := none }, [Effect.stopTracks st])
    | none => (s, [])
  let (s2, e2) :=
    match s1.videoSrc with
    | some v => ({ s1 with videoSrc := none }, [Effect.stopTracks v])
    | none => (s1, [])
  let (s3, e3) :=
    match s2.callRef with
    | some c => ({ s2 with callRef := none }, [Effect.closeCall c])
    | none => (s2, [])
  (s3, e1 ++ e2 ++ e3)

/-- Result of the awaited `navigator.mediaDevices.getDisplayMedia` call:
either a fresh live stream handle, or a rejection (permission denied /
no source). -/
inductive AcquireResult where
  | success (st : Nat)
  | failure
deriving DecidableEq

/-- `startScreenShare`, run atomically with the given acquire result.
First stops any existing stream; on acquire failure the catch block sets
the error message; on success the stream is stored and bound to the video
element, and if an open connection and a peer exist the viewer is called
(`peerRef.current.call`, handle stored in `callRef`), otherwise an error
message is set.  `newCall` is the id of the call object a successful
`call` invocation produces. -/
def startScreenShare (res : AcquireResult) (newCall : Nat) (s : AppState) :
    AppState × List Effect :=
  let (s1, e1) := stopScreenShare s
  match res with
  | AcquireResult.failure =>
    ({ s1 with
        error := some "Failed to access screen. Please make sure you grant permission." },
      e1)
  | AcquireResult.success st =>
    let s2 := { s1 with stream := some st, videoSrc := some st }
    if s2.connectionRef.isSome && s2.connOpen && s2.peerRef.isSome then
      ({ s2 with callRef := some newCall }, e1 ++ [Effect.placeCall newCall])
    else
      ({ s2 with
          error := some "No viewer connected. Please wait for someone to connect before sharing." },
        e1)

/-- `connectToPeer`: returns immediately if `remotePeerId` is empty (falsy)
or no peer exists; otherwise sets status to connecting, clears the error,
closes any existing connection, and calls `peer.connect(remotePeerId)`.
`throwMsg = some m` models `peer.connect` throwing (the catch block);
`newConn` is the id of the connection object a successful call produces. -/
def connectToPeer (newConn : Nat) (throwMsg : Option String) (s : AppState) :
    AppState × List Effect :=
  if s.remotePeerId = "" ∨ s.peerRef = none then (s, [])
  else
    let s1 := { s with connectionStatus := ConnStatus.connecting, error := none }
    let closeEff :=
      match s1.connectionRef with
      | some c => [Effect.closeConn c]
      | none => []
    match throwMsg with
    | some m =>
      ({ s1 with
          error := some ("Failed to connect: " ++ m)
          connectionStatus := ConnStatus.disconnected },
        closeEff)
    | none =>
      ({ s1 with connectionRef := some newConn, connOpen := false },
        closeEff ++ [Effect.openConn newConn])

/-- Result of the clipboard write promise in `copyPeerId`. -/
inductive ClipResult where
  | ok
  | failed
deriving DecidableEq

/-- `copyPeerId`: guarded by `if (peerId)` — with an empty id nothing
happens at all.  Otherwise the clipboard write is attempted; on resolve
`copied` is set (the delayed reset is the separate `copyTimerFired` event),
on reject an error message is set. -/
def copyPeerId (res : ClipResult) (s : AppState) : AppState × List Effect :=
  if s.peerId = "" then (s, [])
  else
    match res with
    | ClipResult.ok =>
      ({ s with copied := true }, [Effect.clipboardWrite s.peerId])
    | ClipResult.failed =>
      ({ s with error := some "Failed to copy to clipboard" },
        [Effect.clipboardWrite s.peerId])

/-- `disconnect`: closes and clears the connection and call refs, stops the
screen share, resets status, mode, error and the remote id input.  Note it
does not touch `peerId` or `copied`. -/
def disconnect (s : AppState) : AppState × List Effect :=
  let (s1, e1) :=
    match s.connectionRef with
    | some c => ({ s with connectionRef := none, connOpen := false }, [Effect.closeConn c])
    | none => (s, [])
  let (s2, e2) :=
    match s1.callRef with
    | some c => ({ s1 with callRef := none }, [Effect.closeCall c])
    | none => (s1, [])
  let (s3, e3) := stopScreenShare s2
  ({ s3 with
      connectionStatus := ConnStatus.disconnected
      mode := Mode.landing
      error := none
      remotePeerId := "" },
    e1 ++ e2 ++ e3)

/-- The cleanup function returned by the peer-initialization effect: closes
the connection and call refs if present, stops the screen share, and
destroys the peer.  (The refs themselves are not nulled by the cleanup,
except those `stopScreenShare` nulls.) -/
def effectCleanup (s : AppState) : AppState × List Effect :=
  let e1 :=
    match s.connectionRef with
    | some c => [Effect.closeConn c]
    | none => []
  let e2 :=
    match s.callRef with
    | some c => [Effect.closeCall c]
    | none => []
  let (s3, e3) := stopScreenShare s
  let e4 :=
    match s.peerRef with
    | some p => [Effect.destroyPeer p]
    | none => []
  (s3, e1 ++ e2 ++ e3 ++ e4)

/-- Body of the peer-initialization useEffect (mode not landing): destroys
any existing peer, then creates a fresh one and stores it in `peerRef`. -/
def peerInit (newPeer : Nat) (s : AppState) : AppState × List Effect :=
  let destroyEff :=
    match s.peerRef with
    | some p => [Effect.destroyPeer p]
    | none => []
  ({ s with peerRef := some newPeer }, destroyEff ++ [Effect.createPeer newPeer])

/-- Selecting a role from the landing page: `setMode` followed by the
effect body running for the new mode. -/
def selectMode (m : Mode) (newPeer : Nat) (s : AppState) : AppState × List Effect :=
  peerInit newPeer { s with mode := m }

/-- The disconnect button: `disconnect` runs, and since `mode` changes to
landing, React then runs the cleanup of the effect that was registered for
the old (non-landing) mode.  From landing the mode does not change and no
cleanup runs. -/
def disconnectStep (s : AppState) : AppState × List Effect :=
  let (s1, e1) := disconnect s
  if s.mode = Mode.landing then (s1, e1)
  else
    let (s2, e2) := effectCleanup s1
    (s2, e1 ++ e2)

/-- User intents (with the results of their awaited async operations as
explicit data) and peer/connection/call/capture events. -/
inductive Intent where
  | selectShare (newPeer : Nat)
  | selectView (newPeer : Nat)
  | setRemote (v : String)
  | clickConnect (newConn : Nat) (throwMsg : Option String)
  | clickStart (res : AcquireResult) (newCall : Nat)
  | clickStop
  | clickDisconnect
  | clickCopy (res : ClipResult)
  | copyTimerFired
  | peerOpened (id : String)
  | peerErrored (t : String)
  | incomingConn (c : Nat)
  | connOpened
  | connClosed
  | connErrored (m : String)
  | incomingCall (c : Nat)
  | callStream (st : Nat)
  | callClosed
  | callErrored (m : String)
  | trackEnded

/-- One atomic step of the component.  Each intent is guarded by the
condition under which the UI renders the corresponding control (button
visibility / disabled state) or under which the corresponding event
handler is registered; when the guard fails the step is a no-op. -/
def dispatch (i : Intent) (s : AppState) : AppState × List Effect :=
  match i with
  | Intent.selectShare p =>
    if s.mode = Mode.landing then selectMode Mode.share p s else (s, [])
  | Intent.selectView p =>
    if s.mode = Mode.landing then selectMode Mode.view p s else (s, [])
  | Intent.setRemote v =>
    if s.mode = Mode.view ∧ s.connectionStatus = ConnStatus.disconnected then
      ({ s with remotePeerId := v }, [])
    else (s, [])
  | Intent.clickConnect c th =>
    if s.mode = Mode.view ∧ s.connectionStatus = ConnStatus.disconnected then
      connectToPeer c th s
    else (s, [])
  | Intent.clickStart res cl =>
    if s.mode = Mode.share ∧ s.connectionStatus = ConnStatus.connected ∧ s.stream = none then
      startScreenShare res cl s
    else (s, [])
  | Intent.clickStop =>
    if s.mode = Mode.share ∧ s.stream.isSome then stopScreenShare s else (s, [])
  | Intent.clickDisconnect =>
    if s.mode = Mode.landing then (s, []) else disconnectStep s
  | Intent.clickCopy res =>
    if s.mode = Mode.share then copyPeerId res s else (s, [])
  | Intent.copyTimerFired =>
    if s.copied then ({ s with copied := false }, []) else (s, [])
  | Intent.peerOpened id =>
    if s.mode = Mode.landing ∨ s.peerRef = none then (s, [])
    else ({ s with peerId := id, error := none }, [])
  | Intent.peerErrored t =>
    if s.mode = Mode.landing ∨ s.peerRef = none then (s, [])
    else
      ({ s with
          error := some ("Connection error: " ++ t)
          connectionStatus := ConnStatus.disconnected }, [])
  | Intent.incomingConn c =>
    if s.mode = Mode.share ∧ s.peerRef.isSome then
      ({ s with connectionRef := some c, connOpen := false }, [])
    else (s, [])
  | Intent.connOpened =>
    if s.connectionRef.isSome then
      match s.mode with
      | Mode.share =>
        ({ s with connectionStatus := ConnStatus.connected, connOpen := true }, [])
      | Mode.view =>
        ({ s with connectionStatus := ConnStatus.connected, connOpen := true }, [])
      | Mode.landing => (s, [])
    else (s, [])
  | Intent.connClosed =>
    if s.connectionRef.isSome then
      match s.mode with
      | Mode.share =>
        stopScreenShare
          { s with connectionStatus := ConnStatus.disconnected, connOpen := false }
      | Mode.view =>
        ({ s with
            connectionStatus := ConnStatus.disconnected
            connOpen := false
            videoSrc := none }, [])
      | Mode.landing => (s, [])
    else (s, [])
  | Intent.connErrored m =>
    if s.connectionRef.isSome then
      match s.mode with
      | Mode.share =>
        ({ s with error := some ("Connection error: " ++ m) }, [])
      | Mode.view =>
        ({ s with
            error := some ("Connection error: " ++ m)
            connectionStatus := ConnStatus.disconnected }, [])
      | Mode.landing => (s, [])
    else (s, [])
  | Intent.incomingCall c =>
    if s.mode = Mode.view ∧ s.peerRef.isSome then
      ({ s with callRef := some c }, [Effect.answerCall c])
    else (s, [])
  | Intent.callStream st =>
    if s.mode = Mode.view ∧ s.callRef.isSome then
      ({ s with videoSrc := some st }, [])
    else (s, [])
  | Intent.callClosed =>
    if s.mode = Mode.view ∧ s.callRef.isSome then
      ({ s with videoSrc := none, connectionStatus := ConnStatus.disconnected }, [])
    else (s, [])
  | Intent.callErrored m =>
    if s.callRef.isSome then
      ({ s with error := some ("Call error: " ++ m) }, [])
    else (s, [])
  | Intent.trackEnded =>
    if s.stream.isSome then stopScreenShare s else (s, [])

/-- States reachable from the initial render by any sequence of user
intents and peer events. -/
inductive Reachable : AppState → Prop where
  | init : Reachable initState
  | step : ∀ (i : Intent) (s : AppState), Reachable s → Reachable (dispatch i s).1


/-- A viewer session right after role selection: peer created, remote id
input still empty. -/
def viewerIdle : AppState :=
  { initState with
      mode := Mode.view
      peerRef := some 0 }

/-- A sharer session with a viewer connected over channel 1 (channel open),
no capture yet. -/
def sharerConnected : AppState :=
  { initState with
      mode := Mode.share
      connectionStatus := ConnStatus.connected
      peerRef := some 0
      connectionRef := some 1
      connOpen := true }

/-- A viewer session connected to a sharer over channel 1. -/
def viewerConnected : AppState :=
  { initState with
      mode := Mode.view
      connectionStatus := ConnStatus.connected
      peerRef := some 0
      connectionRef := some 1
      connOpen := true }

/-- A sharer session that is connected and actively sharing: capture stream
2 live and bound to the video element, media call 3 placed. -/
def sharerSharing : AppState :=
  { sharerConnected with
      stream := some 2
      videoSrc := some 2
      callRef := some 3 }

/-- C3 counterexample: in a viewer session with `remotePeerId` empty and no
error recorded, `connectToPeer` leaves the state completely unchanged and
the error still `none` — no InvalidIntent (or any) error is reported, so
the "an InvalidIntent error is reported" part of the claim is false on the
code (the function silently returns). -/
theorem connect_empty_reports_no_error :
    (connectToPeer 1 none viewerIdle).1.error = none
    ∧ connectToPeer 1 none viewerIdle = (viewerIdle, []) := by
  constructor <;> rfl

/-- C3 (amended): invoking `connectToPeer` with an empty `remotePeerId` is
a silent no-op: no connection attempt is made (no effects), and the whole
state — in particular `connectionStatus` and `error` — is unchanged. -/
theorem connect_empty_noop (s : AppState) (c : Nat) (th : Option String)
    (h : s.remotePeerId = "") : connectToPeer c th s = (s, []) := by
  simp [connectToPeer, h]

/-- Witness for `connect_empty_noop` at the initial state. -/
theorem connect_empty_noop_witness : connectToPeer 0 none initState = (initState, []) :=
  connect_empty_noop initState 0 none rfl

/-- C10: with an empty `peerId`, `copyPeerId` is a no-op — no clipboard
write is attempted (no effects) and the state, including the `copied` flag
and the error, is unchanged. -/
theorem copy_empty_noop (s : AppState) (res : ClipResult)
    (h : s.peerId = "") : copyPeerId res s = (s, []) := by
  simp [copyPeerId, h]

/-- Witness for `copy_empty_noop` at the initial state. -/
theorem copy_empty_noop_witness : copyPeerId ClipResult.ok initState = (initState, []) :=
  copy_empty_noop initState ClipResult.ok rfl

/-- C8: `disconnect` (including the mode-change effect cleanup, which does
not run from landing) is idempotent from the idle/landing state: one and
two invocations both leave the state exactly `initState` and emit no
effects (nothing is closed, no error raised). -/
theorem disconnect_idempotent_from_idle :
    disconnectStep initState = (initState, [])
    ∧ disconnectStep (disconnectStep initState).1 = (initState, []) := by
  constructor <;> rfl

/-- C4: if the capture acquire fails while the sharer is Connected (with no
active capture, the condition under which the start-sharing button is
rendered), the catch converts the failure into the error message, the
stream handle remains null, and the connection status stays connected. -/
theorem startShare_failure_rollback (s : AppState) (cl : Nat)
    (hm : s.mode = Mode.share) (hst : s.connectionStatus = ConnStatus.connected)
    (hs : s.stream = none) :
    (dispatch (Intent.clickStart AcquireResult.failure cl) s).1.error
        = some "Failed to access screen. Please make sure you grant permission."
    ∧ (dispatch (Intent.clickStart AcquireResult.failure cl) s).1.stream = none
    ∧ (dispatch (Intent.clickStart AcquireResult.failure cl) s).1.connectionStatus
        = ConnStatus.connected := by
  cases hv : s.videoSrc <;> cases hc : s.callRef <;>
    simp [dispatch, hm, hst, hs, hv, hc, startScreenShare, stopScreenShare]

/-- Witness for `startShare_failure_rollback` at a concrete connected
sharer state. -/
theorem startShare_failure_rollback_witness :
    (dispatch (Intent.clickStart AcquireResult.failure 9) sharerConnected).1.error
        = some "Failed to access screen. Please make sure you grant permission."
    ∧ (dispatch (Intent.clickStart AcquireResult.failure 9) sharerConnected).1.stream = none
    ∧ (dispatch (Intent.clickStart AcquireResult.failure 9) sharerConnected).1.connectionStatus
        = ConnStatus.connected :=
  startShare_failure_rollback sharerConnected 9 rfl rfl rfl

/-- C5 counterexample: in the viewer role, the channel error handler does
change the connection phase — from a connected viewer state, an error
event sets `connectionStatus` to disconnected, contradicting the claim
that an error event never changes `connectionPhase` in either role. -/
theorem viewer_error_changes_phase :
    (dispatch (Intent.connErrored "x") viewerConnected).1.connectionStatus
      = ConnStatus.disconnected
    ∧ viewerConnected.connectionStatus = ConnStatus.connected := by
  constructor <;> rfl

/-- C5 (amended): an error event on an open channel never closes the
channel (no effects are emitted in either role); in the sharer role it
only sets the error message, while in the viewer role it sets the error
message and additionally sets `connectionStatus` to disconnected. -/
theorem error_event_policy (s : AppState) (m : String) (cn : Nat)
    (hc : s.connectionRef = some cn) :
    (s.mode = Mode.share →
      (dispatch (Intent.connErrored m) s).1
          = { s with error := some ("Connection error: " ++ m) }
      ∧ (dispatch (Intent.connErrored m) s).2 = [])
    ∧ (s.mode = Mode.view →
      (dispatch (Intent.connErrored m) s).1
          = { s with
                error := some ("Connection error: " ++ m)
                connectionStatus := ConnStatus.disconnected }
      ∧ (dispatch (Intent.connErrored m) s).2 = []) := by
  constructor <;> intro hm <;> simp [dispatch, hc, hm]

/-- Witness for `error_event_policy` at a concrete connected sharer state. -/
theorem error_event_policy_witness :
    (dispatch (Intent.connErrored "boom") sharerConnected).1
        = { sharerConnected with error := some ("Connection error: " ++ "boom") }
    ∧ (dispatch (Intent.connErrored "boom") sharerConnected).2 = [] :=
  (error_event_policy sharerConnected "boom" 1 rfl).1 rfl

/-- C2: a `closed` event from the signaling channel while the sharer is
connected and sharing cascades fully — phase becomes disconnected, the
capture stream handle is cleared with its tracks stopped, and the media
call is closed and cleared. -/
theorem link_close_cascades (s : AppState) (st c cn : Nat)
    (hm : s.mode = Mode.share) (hc : s.connectionRef = some cn)
    (hst : s.connectionStatus = ConnStatus.connected)
    (hstream : s.stream = some st) (hcall : s.callRef = some c) :
    (dispatch Intent.connClosed s).1.connectionStatus = ConnStatus.disconnected
    ∧ (dispatch Intent.connClosed s).1.stream = none
    ∧ (dispatch Intent.connClosed s).1.callRef = none
    ∧ Effect.stopTracks st ∈ (dispatch Intent.connClosed s).2
    ∧ Effect.closeCall c ∈ (dispatch Intent.connClosed s).2 := by
  cases hv : s.videoSrc <;>
    simp [dispatch, hm, hc, hst, hstream, hcall, hv, stopScreenShare]

/-- Witness for `link_close_cascades` at a concrete sharing state. -/
theorem link_close_cascades_witness :
    (dispatch Intent.connClosed sharerSharing).1.connectionStatus = ConnStatus.disconnected
    ∧ (dispatch Intent.connClosed sharerSharing).1.stream = none
    ∧ (dispatch Intent.connClosed sharerSharing).1.callRef = none
    ∧ Effect.stopTracks 2 ∈ (dispatch Intent.connClosed sharerSharing).2
    ∧ Effect.closeCall 3 ∈ (dispatch Intent.connClosed sharerSharing).2 :=
  link_close_cascades sharerSharing 2 3 1 rfl rfl rfl rfl rfl

/-- C6: the capture end-of-stream observer firing while the sharer is
connected and sharing runs the same teardown as an explicit stop: the
stream handle is cleared with tracks stopped, the media call is closed and
cleared, and the connection status remains connected (the link stays
open). -/
theorem capture_end_teardown (s : AppState) (st c : Nat)
    (hm : s.mode = Mode.share) (hst : s.connectionStatus = ConnStatus.connected)
    (hstream : s.stream = some st) (hcall : s.callRef = some c) :
    (dispatch Intent.trackEnded s).1.stream = none
    ∧ (dispatch Intent.trackEnded s).1.callRef = none
    ∧ (dispatch Intent.trackEnded s).1.connectionStatus = ConnStatus.connected
    ∧ Effect.stopTracks st ∈ (dispatch Intent.trackEnded s).2
    ∧ Effect.closeCall c ∈ (dispatch Intent.trackEnded s).2 := by
  cases hv : s.videoSrc <;>
    simp [dispatch, hm, hst, hstream, hcall, hv, stopScreenShare]

/-- Witness for `capture_end_teardown` at a concrete sharing state. -/
theorem capture_end_teardown_witness :
    (dispatch Intent.trackEnded sharerSharing).1.stream = none
    ∧ (dispatch Intent.trackEnded sharerSharing).1.callRef = none
    ∧ (dispatch Intent.trackEnded sharerSharing).1.connectionStatus = ConnStatus.connected
    ∧ Effect.stopTracks 2 ∈ (dispatch Intent.trackEnded sharerSharing).2
    ∧ Effect.closeCall 3 ∈ (dispatch Intent.trackEnded sharerSharing).2 :=
  capture_end_teardown sharerSharing 2 3 rfl rfl rfl rfl

/-- C9 counterexample: after an explicit disconnect from a sharer session
whose `peerId` is "abc", the `peerId` field still holds "abc" — it is not
reset to its empty default, contradicting the claim that every state field
returns to its default (localIdentity to empty) on destruction. -/
theorem disconnect_keeps_peerId :
    (disconnectStep { sharerSharing with peerId := "abc" }).1.peerId = "abc"
    ∧ ("abc" : String) ≠ "" := by
  constructor
  · rfl
  · decide

/-- C9 (amended): on explicit disconnect from any non-idle state, all
sub-resources are released — the channel and call refs are closed and
cleared, the capture stream and video binding are stopped and cleared, and
the signaling peer is destroyed by the effect cleanup — and
`connectionStatus`, `mode`, `error` and `remotePeerId` are reset to their
defaults; but `peerId` (localIdentity) and the `copied` flag keep their
old values rather than being reset. -/
theorem disconnect_releases_but_keeps_identity (s : AppState) (p : Nat)
    (hm : ¬ s.mode = Mode.landing) (hp : s.peerRef = some p) :
    (disconnectStep s).1.connectionStatus = ConnStatus.disconnected
    ∧ (disconnectStep s).1.mode = Mode.landing
    ∧ (disconnectStep s).1.error = none
    ∧ (disconnectStep s).1.remotePeerId = ""
    ∧ (disconnectStep s).1.stream = none
    ∧ (disconnectStep s).1.videoSrc = none
    ∧ (disconnectStep s).1.connectionRef = none
    ∧ (disconnectStep s).1.callRef = none
    ∧ (disconnectStep s).1.peerId = s.peerId
    ∧ (disconnectStep s).1.copied = s.copied
    ∧ Effect.destroyPeer p ∈ (disconnectStep s).2 := by
  cases hcr : s.connectionRef <;> cases hca : s.callRef <;>
    cases hs : s.stream <;> cases hv : s.videoSrc <;>
    simp [disconnectStep, disconnect, effectCleanup, stopScreenShare,
      hm, hp, hcr, hca, hs, hv]

/-- Witness for `disconnect_releases_but_keeps_identity` at the concrete
sharing state. -/
theorem disconnect_releases_witness :
    (disconnectStep sharerSharing).1.connectionStatus = ConnStatus.disconnected
    ∧ (disconnectStep sharerSharing).1.mode = Mode.landing
    ∧ (disconnectStep sharerSharing).1.error = none
    ∧ (disconnectStep sharerSharing).1.remotePeerId = ""
    ∧ (disconnectStep sharerSharing).1.stream = none
    ∧ (disconnectStep sharerSharing).1.videoSrc = none
    ∧ (disconnectStep sharerSharing).1.connectionRef = none
    ∧ (disconnectStep sharerSharing).1.callRef = none
    ∧ (disconnectStep sharerSharing).1.peerId = sharerSharing.peerId
    ∧ (disconnectStep sharerSharing).1.copied = sharerSharing.copied
    ∧ Effect.destroyPeer 0 ∈ (disconnectStep sharerSharing).2 :=
  disconnect_releases_but_keeps_identity sharerSharing 0 (by decide) rfl


/-- `stopScreenShare` never changes the mode. -/
theorem stopScreenShare_mode (s : AppState) : (stopScreenShare s).1.mode = s.mode := by
  cases hs : s.stream <;> cases hv : s.videoSrc <;> cases hc : s.callRef <;>
    simp [stopScreenShare, hs, hv, hc]

/-- `stopScreenShare` always leaves the stream handle cleared. -/
theorem stopScreenShare_stream (s : AppState) : (stopScreenShare s).1.stream = none := by
  cases hs : s.stream <;> cases hv : s.videoSrc <;> cases hc : s.callRef <;>
    simp [stopScreenShare, hs, hv, hc]

/-- `startScreenShare` never changes the mode. -/
theorem startScreenShare_mode (res : AcquireResult) (cl : Nat) (s : AppState) :
    (startScreenShare res cl s).1.mode = s.mode := by
  cases res with
  | failure => simp [startScreenShare, stopScreenShare_mode]
  | success st =>
    simp only [startScreenShare]
    split <;> simp [stopScreenShare_mode]

/-- `connectToPeer` changes neither the mode nor the stream handle. -/
theorem connectToPeer_mode_stream (c : Nat) (th : Option String) (s : AppState) :
    (connectToPeer c th s).1.mode = s.mode
    ∧ (connectToPeer c th s).1.stream = s.stream := by
  unfold connectToPeer
  split
  · simp
  · cases th <;> simp

/-- `disconnect` always leaves the stream handle cleared. -/
theorem disconnect_stream (s : AppState) : (disconnect s).1.stream = none := by
  cases hcr : s.connectionRef <;> cases hca : s.callRef <;>
    cases hs : s.stream <;> cases hv : s.videoSrc <;>
    simp [disconnect, stopScreenShare, hcr, hca, hs, hv]

/-- The effect cleanup returns the `stopScreenShare` state. -/
theorem effectCleanup_fst (s : AppState) : (effectCleanup s).1 = (stopScreenShare s).1 := by
  simp [effectCleanup]

/-- The full disconnect step always leaves the stream handle cleared. -/
theorem disconnectStep_stream (s : AppState) : (disconnectStep s).1.stream = none := by
  by_cases hm : s.mode = Mode.landing
  · simp [disconnectStep, hm, disconnect_stream]
  · simp [disconnectStep, hm, effectCleanup_fst, stopScreenShare_stream]

/-- One step preserves the capture-implies-sharer invariant. -/
theorem dispatch_preserves_capture_sharer (i : Intent) (s : AppState)
    (ih : s.stream.isSome = true → s.mode = Mode.share) :
    (dispatch i s).1.stream.isSome = true → (dispatch i s).1.mode = Mode.share := by
  cases i with
  | selectShare p =>
    by_cases hm : s.mode = Mode.landing
    · intro _
      simp [dispatch, hm, selectMode, peerInit]
    · simp only [dispatch, if_neg hm]
      simpa using ih
  | selectView p =>
    by_cases hm : s.mode = Mode.landing
    · intro hs
      have hstream : s.stream.isSome = true := by
        simpa [dispatch, hm, selectMode, peerInit] using hs
      have hmode := ih hstream
      rw [hm] at hmode
      exact absurd hmode (by decide)
    · simp only [dispatch, if_neg hm]
      simpa using ih
  | setRemote v =>
    simp only [dispatch]
    split <;> simpa using ih
  | clickConnect c th =>
    simp only [dispatch]
    split
    · intro hs
      rw [(connectToPeer_mode_stream c th s).1]
      exact ih (by rwa [(connectToPeer_mode_stream c th s).2] at hs)
    · simpa using ih
  | clickStart res cl =>
    by_cases hcond : s.mode = Mode.share ∧ s.connectionStatus = ConnStatus.connected
        ∧ s.stream = none
    · simp only [dispatch, if_pos hcond]
      intro _
      rw [startScreenShare_mode]
      exact hcond.1
    · simp only [dispatch, if_neg hcond]
      simpa using ih
  | clickStop =>
    by_cases hcond : s.mode = Mode.share ∧ s.stream.isSome = true
    · simp only [dispatch, if_pos hcond]
      intro _
      rw [stopScreenShare_mode]
      exact hcond.1
    · simp only [dispatch, if_neg hcond]
      simpa using ih
  | clickDisconnect =>
    by_cases hm : s.mode = Mode.landing
    · simp only [dispatch, if_pos hm]
      simpa using ih
    · simp only [dispatch, if_neg hm]
      intro hs
      rw [disconnectStep_stream] at hs
      simp at hs
  | clickCopy res =>
    by_cases hm : s.mode = Mode.share
    · simp only [dispatch, if_pos hm]
      unfold copyPeerId
      split
      · simpa using ih
      · cases res <;> simpa using ih
    · simp only [dispatch, if_neg hm]
      simpa using ih
  | copyTimerFired =>
    simp only [dispatch]
    split <;> simpa using ih
  | peerOpened id =>
    simp only [dispatch]
    split <;> simpa using ih
  | peerErrored t =>
    simp only [dispatch]
    split <;> simpa using ih
  | incomingConn c =>
    simp only [dispatch]
    split <;> simpa using ih
  | connOpened =>
    cases hcr : s.connectionRef with
    | none => simp only [dispatch, hcr]; simpa using ih
    | some cn =>
      cases hm : s.mode <;> simp only [dispatch, hcr, hm] <;> simpa [hm] using ih
  | connClosed =>
    cases hcr : s.connectionRef with
    | none => simp only [dispatch, hcr]; simpa using ih
    | some cn =>
      cases hm : s.mode with
      | landing => simp only [dispatch, hcr, hm]; simpa [hm] using ih
      | share =>
        simp only [dispatch, hcr, hm]
        intro _
        simp [stopScreenShare_mode, hm]
      | view => simp only [dispatch, hcr, hm]; simpa [hm] using ih
  | connErrored m =>
    cases hcr : s.connectionRef with
    | none => simp only [dispatch, hcr]; simpa using ih
    | some cn =>
      cases hm : s.mode <;> simp only [dispatch, hcr, hm] <;> simpa [hm] using ih
  | incomingCall c =>
    simp only [dispatch]
    split <;> simpa using ih
  | callStream st =>
    simp only [dispatch]
    split <;> simpa using ih
  | callClosed =>
    simp only [dispatch]
    split <;> simpa using ih
  | callErrored m =>
    simp only [dispatch]
    split <;> simpa using ih
  | trackEnded =>
    by_cases hcond : s.stream.isSome = true
    · simp only [dispatch, if_pos hcond]
      intro _
      rw [stopScreenShare_mode]
      exact ih hcond
    · simp only [dispatch, if_neg hcond]
      simpa using ih

/-- C1: over every sequence of user intents and peer events, whenever the
capture stream handle is non-null the mode is share — no viewer or landing
state ever holds a live capture stream. -/
theorem capture_implies_sharer (s : AppState) (h : Reachable s) :
    s.stream.isSome = true → s.mode = Mode.share := by
  induction h with
  | init => intro hs; simp [initState] at hs
  | step i s _ ih => exact dispatch_preserves_capture_sharer i s ih

/-- Witness for `capture_implies_sharer`: a concrete sharing session
reached by selecting share, receiving a viewer connection that opens, and
starting the capture successfully. -/
theorem capture_implies_sharer_witness :
    (dispatch (Intent.clickStart (AcquireResult.success 5) 7)
      (dispatch Intent.connOpened
        (dispatch (Intent.incomingConn 1)
          (dispatch (Intent.selectShare 0) initState).1).1).1).1.mode = Mode.share :=
  capture_implies_sharer _
    (Reachable.step _ _ (Reachable.step _ _ (Reachable.step _ _
      (Reachable.step _ _ Reachable.init))))
    (by decide)


/-- The external resource environment: the signaling peers currently alive
(created and not yet destroyed). -/
structure World where
  livePeers : List Nat
deriving DecidableEq

/-- Applying one emitted effect to the environment: `createPeer` registers
a live peer, `destroyPeer` removes it; every other effect leaves the set of
live peers unchanged. -/
def applyEffect (w : World) (e : Effect) : World :=
  match e with
  | Effect.createPeer p => { w with livePeers := p :: w.livePeers }
  | Effect.destroyPeer p => { w with livePeers := w.livePeers.filter (fun q => q != p) }
  | _ => w

/-- Applying a list of effects in order. -/
def applyEffects (w : World) (es : List Effect) : World :=
  es.foldl applyEffect w

/-- Component states paired with the resource environment reachable from
the initial render (no live peers). -/
inductive ReachableW : AppState → World → Prop where
  | init : ReachableW initState ⟨[]⟩
  | step : ∀ (i : Intent) (s : AppState) (w : World), ReachableW s w →
      ReachableW (dispatch i s).1 (applyEffects w (dispatch i s).2)

/-- Coupling invariant: either no signaling peer is live, or exactly the
one currently held in `peerRef` is. -/
def PeerInv (s : AppState) (w : World) : Prop :=
  w.livePeers = [] ∨ ∃ p, w.livePeers = [p] ∧ s.peerRef = some p

/-- Effects that do not create or destroy a signaling peer. -/
def peerNeutral : Effect → Bool
  | Effect.createPeer _ => false
  | Effect.destroyPeer _ => false
  | _ => true

theorem applyEffect_neutral (w : World) (e : Effect) (h : peerNeutral e = true) :
    applyEffect w e = w := by
  cases e <;> simp_all [peerNeutral, applyEffect]

theorem applyEffects_neutral (w : World) (es : List Effect)
    (h : ∀ e ∈ es, peerNeutral e = true) : applyEffects w es = w := by
  induction es generalizing w with
  | nil => rfl
  | cons e es ih =>
    have he : peerNeutral e = true := h e (List.mem_cons_self e es)
    have hes : ∀ x ∈ es, peerNeutral x = true := fun x hx => h x (List.mem_cons_of_mem e hx)
    show applyEffects w (e :: es) = w
    rw [applyEffects, List.foldl_cons, applyEffect_neutral w e he]
    exact ih w hes

theorem applyEffects_append (w : World) (es1 es2 : List Effect) :
    applyEffects w (es1 ++ es2) = applyEffects (applyEffects w es1) es2 := by
  simp [applyEffects, List.foldl_append]

/-- All effects of `stopScreenShare` are peer-neutral. -/
theorem stopScreenShare_neutral (s : AppState) :
    ∀ e ∈ (stopScreenShare s).2, peerNeutral e = true := by
  cases hs : s.stream <;> cases hv : s.videoSrc <;> cases hc : s.callRef <;>
    simp [stopScreenShare, hs, hv, hc, peerNeutral]

/-- `stopScreenShare` never changes the peer ref. -/
theorem stopScreenShare_peerRef (s : AppState) :
    (stopScreenShare s).1.peerRef = s.peerRef := by
  cases hs : s.stream <;> cases hv : s.videoSrc <;> cases hc : s.callRef <;>
    simp [stopScreenShare, hs, hv, hc]

/-- All effects of `startScreenShare` are peer-neutral. -/
theorem startScreenShare_neutral (res : AcquireResult) (cl : Nat) (s : AppState) :
    ∀ e ∈ (startScreenShare res cl s).2, peerNeutral e = true := by
  cases res with
  | failure => simpa [startScreenShare] using stopScreenShare_neutral s
  | success st =>
    simp only [startScreenShare]
    split
    · intro e he
      rcases (by simpa using he :
          e ∈ (stopScreenShare s).2 ∨ e = Effect.placeCall cl) with h1 | h1
      · exact stopScreenShare_neutral s e h1
      · subst h1; rfl
    · intro e he
      exact stopScreenShare_neutral s e (by simpa using he)

/-- `startScreenShare` never changes the peer ref. -/
theorem startScreenShare_peerRef (res : AcquireResult) (cl : Nat) (s : AppState) :
    (startScreenShare res cl s).1.peerRef = s.peerRef := by
  cases res with
  | failure => simp [startScreenShare, stopScreenShare_peerRef]
  | success st =>
    simp only [startScreenShare]
    split <;> simp [stopScreenShare_peerRef]

/-- All effects of `connectToPeer` are peer-neutral. -/
theorem connectToPeer_neutral (c : Nat) (th : Option String) (s : AppState) :
    ∀ e ∈ (connectToPeer c th s).2, peerNeutral e = true := by
  unfold connectToPeer
  split
  · simp
  · cases th <;> cases hcr : s.connectionRef <;> simp [hcr, peerNeutral]

/-- `connectToPeer` never changes the peer ref. -/
theorem connectToPeer_peerRef (c : Nat) (th : Option String) (s : AppState) :
    (connectToPeer c th s).1.peerRef = s.peerRef := by
  unfold connectToPeer
  split
  · simp
  · cases th <;> simp

/-- All effects of `copyPeerId` are peer-neutral. -/
theorem copyPeerId_neutral (res : ClipResult) (s : AppState) :
    ∀ e ∈ (copyPeerId res s).2, peerNeutral e = true := by
  unfold copyPeerId
  split
  · simp
  · cases res <;> simp [peerNeutral]

/-- `copyPeerId` never changes the peer ref. -/
theorem copyPeerId_peerRef (res : ClipResult) (s : AppState) :
    (copyPeerId res s).1.peerRef = s.peerRef := by
  unfold copyPeerId
  split
  · simp
  · cases res <;> simp

/-- All effects of `disconnect` are peer-neutral (the peer itself is only
destroyed by the effect cleanup that follows the mode change). -/
theorem disconnect_neutral (s : AppState) :
    ∀ e ∈ (disconnect s).2, peerNeutral e = true := by
  cases hcr : s.connectionRef <;> cases hca : s.callRef <;>
    cases hs : s.stream <;> cases hv : s.videoSrc <;>
    simp [disconnect, stopScreenShare, hcr, hca, hs, hv, peerNeutral]

/-- `disconnect` never changes the peer ref. -/
theorem disconnect_peerRef (s : AppState) : (disconnect s).1.peerRef = s.peerRef := by
  cases hcr : s.connectionRef <;> cases hca : s.callRef <;>
    cases hs : s.stream <;> cases hv : s.videoSrc <;>
    simp [disconnect, stopScreenShare, hcr, hca, hs, hv]

/-- Helper: a step whose effects are all peer-neutral and whose state keeps
the peer ref preserves the coupling invariant. -/
theorem PeerInv_of_neutral {s s' : AppState} {w : World} {es : List Effect}
    (hinv : PeerInv s w) (href : s'.peerRef = s.peerRef)
    (hes : ∀ e ∈ es, peerNeutral e = true) : PeerInv s' (applyEffects w es) := by
  rw [applyEffects_neutral w es hes]
  rcases hinv with h | ⟨p, hw, hp⟩
  · exact Or.inl h
  · exact Or.inr ⟨p, hw, by rw [href]; exact hp⟩


/-- `peerInit` preserves the coupling invariant: it destroys whatever peer
the ref held before creating the fresh one, so exactly the new peer is
live afterwards. -/
theorem PeerInv_peerInit (p : Nat) (t s : AppState) (w : World)
    (href : t.peerRef = s.peerRef) (hinv : PeerInv s w) :
    PeerInv (peerInit p t).1 (applyEffects w (peerInit p t).2) := by
  unfold PeerInv at hinv ⊢
  cases hp : t.peerRef with
  | none =>
    simp only [peerInit, hp]
    rcases hinv with h | ⟨q, hw, hq⟩
    · exact Or.inr ⟨p, by simp [applyEffects, applyEffect, h], rfl⟩
    · rw [href] at hp
      rw [hp] at hq
      exact Option.noConfusion hq
  | some old =>
    simp only [peerInit, hp]
    rcases hinv with h | ⟨q, hw, hq⟩
    · exact Or.inr ⟨p, by simp [applyEffects, applyEffect, h], rfl⟩
    · rw [href] at hp
      rw [hp] at hq
      have hqo : old = q := Option.some.inj hq
      subst hqo
      exact Or.inr ⟨p, by simp [applyEffects, applyEffect, hw], rfl⟩

/-- The effect list of the cleanup: a peer-neutral prefix followed by the
destruction of the peer held in the ref. -/
theorem effectCleanup_eff (t : AppState) :
    (effectCleanup t).2
      = ((match t.connectionRef with
            | some c => [Effect.closeConn c]
            | none => [])
          ++ (match t.callRef with
            | some c => [Effect.closeCall c]
            | none => [])
          ++ (stopScreenShare t).2)
        ++ (match t.peerRef with
            | some p => [Effect.destroyPeer p]
            | none => []) := by
  simp [effectCleanup, List.append_assoc]

/-- The prefix of the cleanup effects is peer-neutral. -/
theorem effectCleanup_prefix_neutral (t : AppState) :
    ∀ e ∈ ((match t.connectionRef with
            | some c => [Effect.closeConn c]
            | none => [])
          ++ (match t.callRef with
            | some c => [Effect.closeCall c]
            | none => [])
          ++ (stopScreenShare t).2), peerNeutral e = true := by
  intro e he
  simp only [List.mem_append] at he
  rcases he with (h1 | h2) | h3
  · cases hcr : t.connectionRef <;> rw [hcr] at h1 <;> simp at h1
    subst h1; rfl
  · cases hca : t.callRef <;> rw [hca] at h2 <;> simp at h2
    subst h2; rfl
  · exact stopScreenShare_neutral t e h3

/-- The effect cleanup preserves the coupling invariant: it destroys the
peer held in the ref, so no peer is live afterwards. -/
theorem PeerInv_effectCleanup (t s : AppState) (w : World)
    (href : t.peerRef = s.peerRef) (hinv : PeerInv s w) :
    PeerInv (effectCleanup t).1 (applyEffects w (effectCleanup t).2) := by
  rw [effectCleanup_eff, applyEffects_append,
    applyEffects_neutral w _ (effectCleanup_prefix_neutral t)]
  unfold PeerInv at hinv ⊢
  cases hp : t.peerRef with
  | none =>
    rcases hinv with h | ⟨q, hw, hq⟩
    · exact Or.inl h
    · rw [href] at hp
      rw [hp] at hq
      exact Option.noConfusion hq
  | some p =>
    rcases hinv with h | ⟨q, hw, hq⟩
    · exact Or.inl (by simp [applyEffects, applyEffect, h])
    · have hqp : q = p := by
        rw [href] at hp
        rw [hp] at hq
        exact (Option.some.inj hq).symm
      subst hqp
      exact Or.inl (by simp [applyEffects, applyEffect, hw])

/-- One step preserves the coupling invariant. -/
theorem dispatch_preserves_PeerInv (i : Intent) (s : AppState) (w : World)
    (hinv : PeerInv s w) :
    PeerInv (dispatch i s).1 (applyEffects w (dispatch i s).2) := by
  cases i with
  | selectShare p =>
    by_cases hm : s.mode = Mode.landing
    · simp only [dispatch, if_pos hm, selectMode]
      exact PeerInv_peerInit p { s with mode := Mode.share } s w rfl hinv
    · simp only [dispatch, if_neg hm]
      exact PeerInv_of_neutral hinv rfl (by simp)
  | selectView p =>
    by_cases hm : s.mode = Mode.landing
    · simp only [dispatch, if_pos hm, selectMode]
      exact PeerInv_peerInit p { s with mode := Mode.view } s w rfl hinv
    · simp only [dispatch, if_neg hm]
      exact PeerInv_of_neutral hinv rfl (by simp)
  | setRemote v =>
    simp only [dispatch]
    split <;> exact PeerInv_of_neutral hinv rfl (by simp)
  | clickConnect c th =>
    simp only [dispatch]
    split
    · exact PeerInv_of_neutral hinv (connectToPeer_peerRef c th s) (connectToPeer_neutral c th s)
    · exact PeerInv_of_neutral hinv rfl (by simp)
  | clickStart res cl =>
    simp only [dispatch]
    split
    · exact PeerInv_of_neutral hinv (startScreenShare_peerRef res cl s)
        (startScreenShare_neutral res cl s)
    · exact PeerInv_of_neutral hinv rfl (by simp)
  | clickStop =>
    simp only [dispatch]
    split
    · exact PeerInv_of_neutral hinv (stopScreenShare_peerRef s) (stopScreenShare_neutral s)
    · exact PeerInv_of_neutral hinv rfl (by simp)
  | clickDisconnect =>
    by_cases hm : s.mode = Mode.landing
    · simp only [dispatch, if_pos hm]
      exact PeerInv_of_neutral hinv rfl (by simp)
    · simp only [dispatch, if_neg hm]
      have h1 : (disconnectStep s).1 = (effectCleanup (disconnect s).1).1 := by
        simp [disconnectStep, hm]
      have h2 : (disconnectStep s).2
          = (disconnect s).2 ++ (effectCleanup (disconnect s).1).2 := by
        simp [disconnectStep, hm]
      rw [h1, h2, applyEffects_append, applyEffects_neutral w _ (disconnect_neutral s)]
      exact PeerInv_effectCleanup (disconnect s).1 s w (disconnect_peerRef s) hinv
  | clickCopy res =>
    simp only [dispatch]
    split
    · exact PeerInv_of_neutral hinv (copyPeerId_peerRef res s) (copyPeerId_neutral res s)
    · exact PeerInv_of_neutral hinv rfl (by simp)
  | copyTimerFired =>
    simp only [dispatch]
    split <;> exact PeerInv_of_neutral hinv rfl (by simp)
  | peerOpened id =>
    simp only [dispatch]
    split <;> exact PeerInv_of_neutral hinv rfl (by simp)
  | peerErrored t =>
    simp only [dispatch]
    split <;> exact PeerInv_of_neutral hinv rfl (by simp)
  | incomingConn c =>
    simp only [dispatch]
    split <;> exact PeerInv_of_neutral hinv rfl (by simp)
  | connOpened =>
    cases hcr : s.connectionRef with
    | none =>
      simp only [dispatch, hcr]
      exact PeerInv_of_neutral hinv rfl (by simp)
    | some cn =>
      cases hm : s.mode <;> simp [dispatch, hcr, hm] <;>
        exact PeerInv_of_neutral hinv rfl (by simp)
  | connClosed =>
    cases hcr : s.connectionRef with
    | none =>
      simp only [dispatch, hcr]
      exact PeerInv_of_neutral hinv rfl (by simp)
    | some cn =>
      cases hm : s.mode with
      | landing =>
        simp [dispatch, hcr, hm]
        exact PeerInv_of_neutral hinv rfl (by simp)
      | share =>
        simp [dispatch, hcr, hm]
        exact PeerInv_of_neutral hinv (stopScreenShare_peerRef _) (stopScreenShare_neutral _)
      | view =>
        simp [dispatch, hcr, hm]
        exact PeerInv_of_neutral hinv rfl (by simp)
  | connErrored m =>
    cases hcr : s.connectionRef with
    | none =>
      simp only [dispatch, hcr]
      exact PeerInv_of_neutral hinv rfl (by simp)
    | some cn =>
      cases hm : s.mode <;> simp [dispatch, hcr, hm] <;>
        exact PeerInv_of_neutral hinv rfl (by simp)
  | incomingCall c =>
    simp only [dispatch]
    split <;> exact PeerInv_of_neutral hinv rfl (by simp [peerNeutral])
  | callStream st =>
    simp only [dispatch]
    split <;> exact PeerInv_of_neutral hinv rfl (by simp)
  | callClosed =>
    simp only [dispatch]
    split <;> exact PeerInv_of_neutral hinv rfl (by simp)
  | callErrored m =>
    simp only [dispatch]
    split <;> exact PeerInv_of_neutral hinv rfl (by simp)
  | trackEnded =>
    simp only [dispatch]
    split
    · exact PeerInv_of_neutral hinv (stopScreenShare_peerRef s) (stopScreenShare_neutral s)
    · exact PeerInv_of_neutral hinv rfl (by simp)

/-- The coupling invariant holds in every reachable state. -/
theorem peerInv_reachable (s : AppState) (w : World) (h : ReachableW s w) :
    PeerInv s w := by
  induction h with
  | init => exact Or.inl rfl
  | step i s w _ ih => exact dispatch_preserves_PeerInv i s w ih

/-- C7: at most one signaling link is open at any time — in every reachable
state at most one peer is live; moreover on role re-selection the peer
initialization destroys the old peer before creating the new one, and a
new `connectToPeer` closes the previously open channel before opening the
new one (effect order within the emitted list). -/
theorem single_link_invariant (s : AppState) (w : World) (h : ReachableW s w) :
    w.livePeers.length ≤ 1
    ∧ (∀ p old, s.peerRef = some old →
        (peerInit p s).2 = [Effect.destroyPeer old, Effect.createPeer p])
    ∧ (∀ c old, s.connectionRef = some old → s.remotePeerId ≠ "" → s.peerRef ≠ none →
        (connectToPeer c none s).2 = [Effect.closeConn old, Effect.openConn c]) := by
  refine ⟨?_, ?_, ?_⟩
  · rcases peerInv_reachable s w h with h0 | ⟨p, hw, _⟩
    · simp [h0]
    · simp [hw]
  · intro p old hold
    simp [peerInit, hold]
  · intro c old hco hre hpe
    simp [connectToPeer, hre, hpe, hco]

/-- Witness for `single_link_invariant` after a concrete share-role
selection from the initial state. -/
theorem single_link_invariant_witness :
    (applyEffects ⟨[]⟩ (dispatch (Intent.selectShare 0) initState).2).livePeers.length ≤ 1 :=
  (single_link_invariant (dispatch (Intent.selectShare 0) initState).1
    (applyEffects ⟨[]⟩ (dispatch (Intent.selectShare 0) initState).2)
    (ReachableW.step (Intent.selectShare 0) initState ⟨[]⟩ ReachableW.init)).1

end RemoteShare
